import Mathlib

/-!
Shallow embedding of the msaccess-to-docuware-masterdata utility
(src/insert.py, src/delete.py, src/view.py).

Python scalar values occurring in DataFrame rows are modelled as
`PyValue` (a string, `None`, or float NaN).  SQLite cells are `SQLiteVal`
(TEXT or NULL; both `None` and NaN bind and store as NULL).  The remote
DocuWare service is an oracle: the status returned for the n-th create
POST (`respond`), the successive LIST responses for the delete loop
(`List (Except String ListResponse)`, where `Except.error` models the
HTTP call itself raising), and the login status.  Python's run-randomized
`hash` is an arbitrary function parameter.  Exceptions are modelled as
`Option String` components of result values: `some e` is an exception
propagating out of the modelled code.
-/

namespace MsAccessDocuware

/-- A Python scalar value as it appears in a DataFrame row. -/
inductive PyValue where
  | str (s : String)
  | null
  | nan
  deriving DecidableEq

/-- Python truthiness of these values: `""` and `None` are falsy, NaN is truthy. -/
def PyValue.truthy : PyValue → Bool
  | .str s => s != ""
  | .null => false
  | .nan => true

/-- Python `v or ""` (the normalization applied by `is_duplicate` to its arguments). -/
def PyValue.orEmpty (v : PyValue) : PyValue :=
  if v.truthy then v else .str ""

/-- `pd.isna(value) or (isinstance(value, float) and math.isnan(value))`:
true exactly for `None` and NaN. -/
def PyValue.isna : PyValue → Bool
  | .str _ => false
  | .null => true
  | .nan => true

/-- Python `+` on these values: string concatenation; `nan + nan` is a float (NaN);
any mix of `None`/NaN with a string raises TypeError (`none`). -/
def pyAdd : PyValue → PyValue → Option PyValue
  | .str a, .str b => some (.str (a ++ b))
  | .nan, .nan => some .nan
  | _, _ => none

/-- A value bound into / stored in a TEXT column of SQLite: TEXT or NULL. -/
inductive SQLiteVal where
  | text (s : String)
  | nullv
  deriving DecidableEq

/-- How the sqlite3 driver binds a Python value: strings as TEXT, `None` as NULL,
and NaN as NULL (SQLite has no NaN representation). -/
def sqliteBind : PyValue → SQLiteVal
  | .str s => .text s
  | .null => .nullv
  | .nan => .nullv

/-- SQL `=` comparison: NULL never compares equal to anything. -/
def sqlEq : SQLiteVal → SQLiteVal → Bool
  | .text a, .text b => a == b
  | _, _ => false

/-- One row of the tracking table, schema `(id TEXT PRIMARY KEY, field1 TEXT, field2 TEXT)`. -/
structure TrackRow where
  id : String
  field1 : SQLiteVal
  field2 : SQLiteVal
  deriving DecidableEq

/-- The tracking table contents. -/
abbrev TrackTable := List TrackRow

namespace SQLiteManager

/-- `SQLiteManager.is_duplicate`:
`SELECT 1 FROM table WHERE field1 = ? AND field2 = ?` with bound parameters
`field1 or ""` and `field2 or ""`; returns whether any row matched. -/
def is_duplicate (table : TrackTable) (field1 field2 : PyValue) : Bool :=
  table.any fun r =>
    sqlEq r.field1 (sqliteBind field1.orEmpty) && sqlEq r.field2 (sqliteBind field2.orEmpty)

/-- `SQLiteManager.insert`:
`INSERT OR REPLACE INTO table (id, field1, field2) VALUES (?, ?, ?)`.
REPLACE removes any existing row with the same primary key `id`; the field
values are bound as given, with no `or ""` normalization. -/
def insert (table : TrackTable) (id_val : String) (field1 field2 : PyValue) : TrackTable :=
  (table.filter fun r => r.id != id_val) ++ [⟨id_val, sqliteBind field1, sqliteBind field2⟩]

end SQLiteManager

/-- `clear_sqlite_table` (delete.py): `DELETE FROM table`; wrapped in its own
try/except, so it never raises. -/
def clear_sqlite_table (_table : TrackTable) : TrackTable := []

/-- A DataFrame row: association list from column name to value
(a column may be absent altogether). -/
abbrev Row := List (String × PyValue)

/-- Lookup of a column in a row; `none` when the column is absent. -/
def rowGet (row : Row) (key : String) : Option PyValue :=
  (row.find? fun p => p.1 == key).map (fun p => p.2)

/-- Python `row.get(key, default)`. -/
def rowGetD (row : Row) (key : String) (default : PyValue) : PyValue :=
  (rowGet row key).getD default

/-- One element of the submitted field set: the dict `{"FieldName": ..., "Item": ...}`. -/
structure DWField where
  FieldName : String
  Item : PyValue
  deriving DecidableEq

/-- The body of `build_fields` for one mapping entry:
`value = row.get(source, source)`, then NA values are replaced by `""`. -/
def build_field_value (row : Row) (source : String) : PyValue :=
  let value := rowGetD row source (.str source)
  if value.isna then .str "" else value

/-- `build_fields` (inner function of `import_records`): one `DWField` per
entry of the field mapping, in order. -/
def build_fields (field_mapping : List (String × String)) (row : Row) : List DWField :=
  field_mapping.map fun p => ⟨p.1, build_field_value row p.2⟩

/-- The loop of `import_records` over the remaining rows.  `hash` models Python's
run-randomized `hash`; `respond n` is the DocuWare status answering the n-th
create POST of the run.  State: tracking table, field sets POSTed so far
(in order), and the result carries `some e` when an exception was raised
(the TypeError from `hash(field1+field2)` on non-string values), which
propagates out of the loop. -/
def import_records_go (hash : PyValue → Int) (respond : Nat → Nat)
    (field_mapping : List (String × String)) (rows : List Row)
    (sqlite : TrackTable) (subs : List (List DWField)) :
    TrackTable × List (List DWField) × Option String :=
  match rows with
  | [] => (sqlite, subs, none)
  | row :: rest =>
    let field1 := rowGetD row "field1" (.str "")
    let field2 := rowGetD row "field2" (.str "")
    if SQLiteManager.is_duplicate sqlite field1 field2 then
      import_records_go hash respond field_mapping rest sqlite subs
    else
      let fields := build_fields field_mapping row
      let status := respond subs.length
      if status = 200 then
        match pyAdd field1 field2 with
        | some concat =>
          import_records_go hash respond field_mapping rest
            (SQLiteManager.insert sqlite ("ID_" ++ toString (hash concat)) field1 field2)
            (subs ++ [fields])
        | none => (sqlite, subs ++ [fields], some "TypeError")
      else
        import_records_go hash respond field_mapping rest sqlite (subs ++ [fields])

/-- `import_records`: runs the row loop with no submissions made yet. -/
def import_records (hash : PyValue → Int) (respond : Nat → Nat)
    (field_mapping : List (String × String)) (df : List Row) (sqlite : TrackTable) :
    TrackTable × List (List DWField) × Option String :=
  import_records_go hash respond field_mapping df sqlite []

/-- `import_set1`: fixed query and field mapping; if the fetched DataFrame is
empty the import is skipped (logged, no error). -/
def import_set1 (hash : PyValue → Int) (respond : Nat → Nat) (df : List Row)
    (sqlite : TrackTable) : TrackTable × List (List DWField) × Option String :=
  if df.isEmpty then (sqlite, [], none)
  else import_records hash respond [("field1", "field1"), ("field2", "field2")] df sqlite

/-- Outcome of running insert.py `main`: the field sets submitted, the final
tracking table, and the exception escaping `main` if any (its try block has
`finally` but no `except`, so exceptions propagate after the logout attempt). -/
structure ImportRun where
  submissions : List (List DWField)
  table : TrackTable
  exc : Option String
  deriving DecidableEq

/-- insert.py `main`: `docuware_login` raises `Exception("DocuWare login failed.")`
on a non-200 status and nothing in `main` catches it; otherwise `import_set1`
runs and any exception it raises likewise escapes. -/
def insert_main (loginStatus : Nat) (hash : PyValue → Int) (respond : Nat → Nat)
    (df : List Row) (sqlite : TrackTable) : ImportRun :=
  if loginStatus ≠ 200 then ⟨[], sqlite, some "DocuWare login failed."⟩
  else
    match import_set1 hash respond df sqlite with
    | (table, subs, exc) => ⟨subs, table, exc⟩

/-- An element of a LIST response's Items array; `Id` and `DocID` may be absent. -/
structure DWItem where
  Id : Option String
  DocID : Option String
  deriving DecidableEq

/-- A LIST (GET Documents) response: HTTP status and the parsed Items array. -/
structure ListResponse where
  status : Nat
  Items : List DWItem
  deriving DecidableEq

/-- Python `item.get("Id") or item.get("DocID")`. -/
def item_data_id (item : DWItem) : Option String :=
  match item.Id with
  | some s => if s == "" then item.DocID else some s
  | none => item.DocID

/-- Python f-string rendering of a possibly-absent id (`None` prints as "None"). -/
def pyStr : Option String → String
  | some s => s
  | none => "None"

/-- How the deletion loop of `delete_docuware_data` ended. -/
inductive DeleteOutcome where
  | finished
  | listFailed (status : Nat)
  | raised (e : String)
  | outOfResponses
  deriving DecidableEq

/-- `delete_docuware_data`, over the successive LIST results (an `Except.error`
models the GET itself raising).  Returns the ids DELETEd, in request order,
and how the loop ended; `outOfResponses` marks a run needing more LIST
responses than the supplied oracle, and is a model artifact only. -/
def delete_docuware_data : List (Except String ListResponse) → List String × DeleteOutcome
  | [] => ([], .outOfResponses)
  | .error e :: _ => ([], .raised e)
  | .ok r :: rest =>
    if r.status ≠ 200 then ([], .listFailed r.status)
    else if r.Items.isEmpty then ([], .finished)
    else
      let ids := r.Items.map fun it => pyStr (item_data_id it)
      let (more, out) := delete_docuware_data rest
      (ids ++ more, out)

/-- Outcome of running delete.py `main`: ids DELETEd, the final tracking table,
and the message logged by the top-level `except Exception` block, if it fired. -/
structure DeleteRun where
  deletes : List String
  table : TrackTable
  log : Option String
  deriving DecidableEq

/-- delete.py `main`: `login` only logs its status and returns the session either
way; the delete loop runs; then `clear_sqlite_table` runs unconditionally —
unless an exception was raised, in which case the top-level `except` logs
"Script failed: ..." and the rest of the body (including the clear) is skipped. -/
def delete_main (loginStatus : Nat) (listCalls : List (Except String ListResponse))
    (table : TrackTable) : DeleteRun :=
  let _ := loginStatus
  match delete_docuware_data listCalls with
  | (dels, DeleteOutcome.raised e) => ⟨dels, table, some ("Script failed: " ++ e)⟩
  | (dels, DeleteOutcome.outOfResponses) => ⟨dels, table, none⟩
  | (dels, _) => ⟨dels, clear_sqlite_table table, none⟩

/-- Rendering of a SQLite cell by view.py: `str(cell) if cell is not None else ""`. -/
def render_cell : SQLiteVal → String
  | .text s => s
  | .nullv => ""

/-- The `"-" * 80` separator line printed by view.py. -/
def sep80 : String :=
  String.mk (List.replicate 80 (Char.ofNat 45))

/-- view.py `print_sqlite_table`: the lines printed.  `exc` models sqlite3
raising (missing file, missing table, ...): the whole body is wrapped in
try/except, so the error branch prints a single message and nothing escapes. -/
def print_sqlite_table (table_name : String) (rows : List TrackRow)
    (exc : Option String) : List String :=
  match exc with
  | some e => ["Error reading from SQLite: " ++ e]
  | none =>
    if rows.isEmpty then ["No records found."]
    else
      ("Records in " ++ table_name ++ ":") :: "id | field1 | field2" :: sep80 ::
        rows.map fun r => r.id ++ " | " ++ render_cell r.field1 ++ " | " ++ render_cell r.field2

/-! ### Helper lemmas -/

/-- Python `s or ""` is the identity on strings (also on the empty string). -/
theorem PyValue.orEmpty_str (s : String) : (PyValue.str s).orEmpty = .str s := by
  by_cases h : s = ""
  · subst h; rfl
  · simp [PyValue.orEmpty, PyValue.truthy, h]

/-- `v or ""` is idempotent. -/
theorem PyValue.orEmpty_idem (v : PyValue) : v.orEmpty.orEmpty = v.orEmpty := by
  cases v with
  | str s => rw [PyValue.orEmpty_str, PyValue.orEmpty_str]
  | null => rfl
  | nan => rfl

/-- After inserting a pair of genuine strings, the duplicate check finds it. -/
theorem is_duplicate_insert_str (table : TrackTable) (id_val s1 s2 : String) :
    SQLiteManager.is_duplicate (SQLiteManager.insert table id_val (.str s1) (.str s2))
      (.str s1) (.str s2) = true := by
  unfold SQLiteManager.is_duplicate SQLiteManager.insert
  rw [List.any_append]
  simp [PyValue.orEmpty_str, sqliteBind, sqlEq]

/-! ### Claim theorems -/

/-- C1: for every source row whose (field1, field2) pair is already recorded in
the tracking store (`is_duplicate` returns true), the import loop performs zero
remote create submissions for that row (the submissions list is unchanged) and
moves on to the next row with the same state. -/
theorem c1_duplicate_row_skipped (hash : PyValue → Int) (respond : Nat → Nat)
    (fm : List (String × String)) (row : Row) (rest : List Row)
    (sqlite : TrackTable) (subs : List (List DWField))
    (hdup : SQLiteManager.is_duplicate sqlite (rowGetD row "field1" (.str ""))
      (rowGetD row "field2" (.str "")) = true) :
    import_records_go hash respond fm (row :: rest) sqlite subs
      = import_records_go hash respond fm rest sqlite subs := by
  conv_lhs => rw [import_records_go]
  simp only [hdup, if_true]

/-- C1 witness: a concrete already-tracked row is skipped. -/
theorem c1_duplicate_row_skipped_witness :
    SQLiteManager.is_duplicate [⟨"ID_0", .text "a", .text "b"⟩]
      (rowGetD [("field1", PyValue.str "a"), ("field2", PyValue.str "b")] "field1" (.str ""))
      (rowGetD [("field1", PyValue.str "a"), ("field2", PyValue.str "b")] "field2" (.str ""))
      = true ∧
    import_records_go (fun _ => 0) (fun _ => 200) [("field1", "field1"), ("field2", "field2")]
        [[("field1", PyValue.str "a"), ("field2", PyValue.str "b")]]
        [⟨"ID_0", .text "a", .text "b"⟩] []
      = import_records_go (fun _ => 0) (fun _ => 200) [("field1", "field1"), ("field2", "field2")]
        [] [⟨"ID_0", .text "a", .text "b"⟩] [] :=
  ⟨by decide, c1_duplicate_row_skipped (fun _ => 0) (fun _ => 200)
    [("field1", "field1"), ("field2", "field2")]
    [("field1", PyValue.str "a"), ("field2", PyValue.str "b")] []
    [⟨"ID_0", .text "a", .text "b"⟩] [] (by decide)⟩

/-- C2 counterexample: a concrete run refuting the claim as stated.  A single
row whose field1 and field2 cells are NaN is not a duplicate, is submitted,
gets a 200 response and is inserted — but the driver binds NaN as NULL, so the
stored pair is (NULL, NULL), while a subsequent `is_duplicate` call normalizes
the truthy NaN arguments to NULL parameters as well; NULL never compares equal,
so `is_duplicate` still returns false for that row's pair. -/
theorem c2_counterexample :
    import_records_go (fun _ => 0) (fun _ => 200) [("field1", "field1"), ("field2", "field2")]
        [[("field1", PyValue.nan), ("field2", PyValue.nan)]] [] []
      = ([⟨"ID_0", .nullv, .nullv⟩], [[⟨"field1", .str ""⟩, ⟨"field2", .str ""⟩]], none) ∧
    SQLiteManager.is_duplicate [⟨"ID_0", .nullv, .nullv⟩] PyValue.nan PyValue.nan = false :=
  ⟨rfl, rfl⟩

/-- C2 (amended): for every source row that the import flow submits whose
field1 and field2 values are strings, a 200 response upserts the pair into
the tracking store and the loop continues with the next row; a subsequent
`is_duplicate` call on that pair returns true.  (For NaN/None-valued fields
the round trip fails: NULL is stored, or the id hash raises TypeError.) -/
theorem c2_success_marks_duplicate (hash : PyValue → Int) (respond : Nat → Nat)
    (fm : List (String × String)) (row : Row) (rest : List Row)
    (sqlite : TrackTable) (subs : List (List DWField)) (s1 s2 : String)
    (h1 : rowGetD row "field1" (.str "") = .str s1)
    (h2 : rowGetD row "field2" (.str "") = .str s2)
    (hnd : SQLiteManager.is_duplicate sqlite (.str s1) (.str s2) = false)
    (hst : respond subs.length = 200) :
    import_records_go hash respond fm (row :: rest) sqlite subs
      = import_records_go hash respond fm rest
          (SQLiteManager.insert sqlite ("ID_" ++ toString (hash (.str (s1 ++ s2))))
            (.str s1) (.str s2))
          (subs ++ [build_fields fm row]) ∧
    SQLiteManager.is_duplicate
        (SQLiteManager.insert sqlite ("ID_" ++ toString (hash (.str (s1 ++ s2))))
          (.str s1) (.str s2))
        (.str s1) (.str s2) = true := by
  constructor
  · conv_lhs => rw [import_records_go]
    simp only [h1, h2, hnd, hst, pyAdd, if_false, if_true, Bool.false_eq_true]
  · exact is_duplicate_insert_str sqlite _ s1 s2

/-- C2 witness: the amended theorem at a concrete non-duplicate string row. -/
theorem c2_success_marks_duplicate_witness :
    (rowGetD [("field1", PyValue.str "a"), ("field2", PyValue.str "b")] "field1" (.str "")
        = .str "a" ∧
      rowGetD [("field1", PyValue.str "a"), ("field2", PyValue.str "b")] "field2" (.str "")
        = .str "b" ∧
      SQLiteManager.is_duplicate [] (.str "a") (.str "b") = false ∧
      (fun _ : Nat => 200) ([] : List (List DWField)).length = 200) ∧
    (import_records_go (fun _ => 0) (fun _ => 200) [("field1", "field1"), ("field2", "field2")]
        [[("field1", PyValue.str "a"), ("field2", PyValue.str "b")]] [] []
      = import_records_go (fun _ => 0) (fun _ => 200) [("field1", "field1"), ("field2", "field2")]
          [] (SQLiteManager.insert [] ("ID_" ++ toString ((fun _ : PyValue => (0 : Int)) (.str ("a" ++ "b"))))
            (.str "a") (.str "b"))
          ([] ++ [build_fields [("field1", "field1"), ("field2", "field2")]
            [("field1", PyValue.str "a"), ("field2", PyValue.str "b")]]) ∧
      SQLiteManager.is_duplicate
        (SQLiteManager.insert [] ("ID_" ++ toString ((fun _ : PyValue => (0 : Int)) (.str ("a" ++ "b"))))
          (.str "a") (.str "b"))
        (.str "a") (.str "b") = true) :=
  ⟨⟨by decide, by decide, by decide, rfl⟩,
    c2_success_marks_duplicate (fun _ => 0) (fun _ => 200)
      [("field1", "field1"), ("field2", "field2")]
      [("field1", PyValue.str "a"), ("field2", PyValue.str "b")] [] [] [] "a" "b"
      (by decide) (by decide) (by decide) rfl⟩

/-- C3: for every source row that passed the duplicate check and whose remote
create request returns a status other than 200, the loop leaves the tracking
store untouched (so `is_duplicate` for the pair is still false afterward),
records the one submission that was made, and continues with the next row. -/
theorem c3_failure_leaves_store (hash : PyValue → Int) (respond : Nat → Nat)
    (fm : List (String × String)) (row : Row) (rest : List Row)
    (sqlite : TrackTable) (subs : List (List DWField))
    (hnd : SQLiteManager.is_duplicate sqlite (rowGetD row "field1" (.str ""))
      (rowGetD row "field2" (.str "")) = false)
    (hst : respond subs.length ≠ 200) :
    import_records_go hash respond fm (row :: rest) sqlite subs
      = import_records_go hash respond fm rest sqlite (subs ++ [build_fields fm row]) ∧
    SQLiteManager.is_duplicate sqlite (rowGetD row "field1" (.str ""))
      (rowGetD row "field2" (.str "")) = false := by
  refine ⟨?_, hnd⟩
  conv_lhs => rw [import_records_go]
  simp only [hnd, hst, if_false, Bool.false_eq_true, ite_false]

/-- C3 witness: a concrete row getting status 500 leaves the store unchanged. -/
theorem c3_failure_leaves_store_witness :
    (SQLiteManager.is_duplicate []
        (rowGetD [("field1", PyValue.str "a"), ("field2", PyValue.str "b")] "field1" (.str ""))
        (rowGetD [("field1", PyValue.str "a"), ("field2", PyValue.str "b")] "field2" (.str ""))
        = false ∧
      (fun _ : Nat => 500) ([] : List (List DWField)).length ≠ 200) ∧
    import_records_go (fun _ => 0) (fun _ => 500) [("field1", "field1"), ("field2", "field2")]
        [[("field1", PyValue.str "a"), ("field2", PyValue.str "b")]] [] []
      = import_records_go (fun _ => 0) (fun _ => 500) [("field1", "field1"), ("field2", "field2")]
          [] [] ([] ++ [build_fields [("field1", "field1"), ("field2", "field2")]
            [("field1", PyValue.str "a"), ("field2", PyValue.str "b")]]) :=
  ⟨⟨by decide, by decide⟩,
    (c3_failure_leaves_store (fun _ => 0) (fun _ => 500)
      [("field1", "field1"), ("field2", "field2")]
      [("field1", PyValue.str "a"), ("field2", PyValue.str "b")] [] [] []
      (by decide) (by decide)).1⟩

/-- C4: given two non-empty LIST pages followed by an empty page, the delete
loop issues exactly one DELETE per listed entry (in order), terminates at the
first empty page — any further responses are never consumed — and the number
of DELETE requests is the sum of the two page sizes. -/
theorem c4_delete_per_entry_and_stop (items1 items2 : List DWItem)
    (rest : List (Except String ListResponse))
    (h1 : items1.isEmpty = false) (h2 : items2.isEmpty = false) :
    delete_docuware_data
        (.ok ⟨200, items1⟩ :: .ok ⟨200, items2⟩ :: .ok ⟨200, []⟩ :: rest)
      = ((items1.map fun it => pyStr (item_data_id it))
          ++ (items2.map fun it => pyStr (item_data_id it)), .finished) ∧
    (delete_docuware_data
        (.ok ⟨200, items1⟩ :: .ok ⟨200, items2⟩ :: .ok ⟨200, []⟩ :: rest)).1.length
      = items1.length + items2.length := by
  have main : delete_docuware_data
      (.ok ⟨200, items1⟩ :: .ok ⟨200, items2⟩ :: .ok ⟨200, []⟩ :: rest)
        = ((items1.map fun it => pyStr (item_data_id it))
            ++ (items2.map fun it => pyStr (item_data_id it)), .finished) := by
    rw [delete_docuware_data]
    simp only [h1, h2, ite_false, ite_true]
    rw [delete_docuware_data]
    simp only [h1, h2, ite_false, ite_true]
    rw [delete_docuware_data]
    simp
  exact ⟨main, by rw [main]; simp⟩

/-- C4 witness: pages of sizes 10000, 10000, 0 give exactly 20000 DELETE
requests and the loop stops at the empty page (a further garbage response is
never consumed). -/
theorem c4_delete_per_entry_and_stop_witness :
    ((List.replicate 10000 (⟨some "x", none⟩ : DWItem)).isEmpty = false ∧
      (List.replicate 10000 (⟨some "y", none⟩ : DWItem)).isEmpty = false) ∧
    (delete_docuware_data
        (.ok ⟨200, List.replicate 10000 ⟨some "x", none⟩⟩
          :: .ok ⟨200, List.replicate 10000 ⟨some "y", none⟩⟩
          :: .ok ⟨200, []⟩ :: [.ok ⟨404, []⟩])).1.length = 20000 ∧
    (delete_docuware_data
        (.ok ⟨200, List.replicate 10000 ⟨some "x", none⟩⟩
          :: .ok ⟨200, List.replicate 10000 ⟨some "y", none⟩⟩
          :: .ok ⟨200, []⟩ :: [.ok ⟨404, []⟩])).2 = .finished := by
  have h := c4_delete_per_entry_and_stop
    (List.replicate 10000 ⟨some "x", none⟩) (List.replicate 10000 ⟨some "y", none⟩)
    [.ok ⟨404, []⟩] rfl rfl
  refine ⟨⟨rfl, rfl⟩, ?_, ?_⟩
  · rw [h.2]; simp only [List.length_replicate]
  · rw [h.1]

/-- C5 counterexample: a run whose only LIST call fails with status 500 still
ends with an empty tracking table — the original row is gone, refuting the
claim that the table contents are left unchanged on a LIST failure. -/
theorem c5_counterexample :
    delete_main 200 [Except.ok ⟨500, []⟩] [⟨"ID_1", .text "a", .text "b"⟩]
      = ⟨[], [], none⟩ ∧
    ([] : TrackTable) ≠ [⟨"ID_1", .text "a", .text "b"⟩] :=
  ⟨rfl, by decide⟩

/-- C5 (amended): when a LIST call returns a non-200 status the deletion loop
breaks immediately (no DELETE requests from that page on), but delete.py `main`
still runs `clear_sqlite_table` unconditionally afterwards, so the run ends
with an empty tracking table rather than leaving its contents unchanged. -/
theorem c5_list_failure_breaks_but_clears (status : Nat) (items : List DWItem)
    (rest : List (Except String ListResponse)) (loginStatus : Nat)
    (table : TrackTable) (hs : status ≠ 200) :
    delete_docuware_data (.ok ⟨status, items⟩ :: rest) = ([], .listFailed status) ∧
    delete_main loginStatus (.ok ⟨status, items⟩ :: rest) table
      = ⟨[], clear_sqlite_table table, none⟩ := by
  have hloop : delete_docuware_data (.ok ⟨status, items⟩ :: rest)
      = ([], .listFailed status) := by
    rw [delete_docuware_data]
    exact if_pos hs
  refine ⟨hloop, ?_⟩
  rw [delete_main, hloop]

/-- C5 witness: a concrete failing LIST call; loop breaks, table is cleared. -/
theorem c5_list_failure_breaks_but_clears_witness :
    (500 : Nat) ≠ 200 ∧
    delete_docuware_data [Except.ok ⟨500, [⟨some "x", none⟩]⟩] = ([], .listFailed 500) ∧
    delete_main 200 [Except.ok ⟨500, [⟨some "x", none⟩]⟩] [⟨"ID_1", .text "a", .text "b"⟩]
      = ⟨[], clear_sqlite_table [⟨"ID_1", .text "a", .text "b"⟩], none⟩ :=
  ⟨by decide,
    (c5_list_failure_breaks_but_clears 500 [⟨some "x", none⟩] [] 200
      [⟨"ID_1", .text "a", .text "b"⟩] (by decide)).1,
    (c5_list_failure_breaks_but_clears 500 [⟨some "x", none⟩] [] 200
      [⟨"ID_1", .text "a", .text "b"⟩] (by decide)).2⟩

/-- C6 counterexample: the import entry point has no catch-all — its `main`
uses try/finally with no except clause — so the exception raised by
`docuware_login` on a failed login escapes `main` (`exc` is not `none`),
refuting the claim that no exception escapes any of the three entry points. -/
theorem c6_counterexample :
    (insert_main 401 (fun _ => 0) (fun _ => 200) [] []).exc
      = some "DocuWare login failed." :=
  rfl

/-- C6 (amended): the delete-all and view entry points wrap their work in a
top-level catch-all, so any exception is reported as a single logged/printed
message and none escapes; the import entry point, however, only guarantees
logout via a finally block, and an exception such as a login failure
propagates out of it. -/
theorem c6_catch_all_only_delete_and_view (loginStatus : Nat) (e : String)
    (listCalls : List (Except String ListResponse)) (table : TrackTable)
    (tname : String) (rows : List TrackRow) :
    delete_main loginStatus (Except.error e :: listCalls) table
      = ⟨[], table, some ("Script failed: " ++ e)⟩ ∧
    print_sqlite_table tname rows (some e) = ["Error reading from SQLite: " ++ e] ∧
    ∀ (ls : Nat) (hash : PyValue → Int) (respond : Nat → Nat) (df : List Row)
      (sqlite : TrackTable), ls ≠ 200 →
        insert_main ls hash respond df sqlite = ⟨[], sqlite, some "DocuWare login failed."⟩ := by
  refine ⟨rfl, rfl, ?_⟩
  intro ls hash respond df sqlite hls
  rw [insert_main, if_pos hls]

/-- C6 witness: concrete raising runs for the delete and import entry points. -/
theorem c6_catch_all_only_delete_and_view_witness :
    delete_main 200 [Except.error "boom"] [⟨"ID_1", .text "a", .text "b"⟩]
      = ⟨[], [⟨"ID_1", .text "a", .text "b"⟩], some ("Script failed: " ++ "boom")⟩ ∧
    print_sqlite_table "cache_table" [] (some "boom")
      = ["Error reading from SQLite: " ++ "boom"] ∧
    insert_main 401 (fun _ => 1) (fun _ => 200) [] [⟨"ID_1", .text "a", .text "b"⟩]
      = ⟨[], [⟨"ID_1", .text "a", .text "b"⟩], some "DocuWare login failed."⟩ := by
  have h := c6_catch_all_only_delete_and_view 200 "boom" []
    [⟨"ID_1", .text "a", .text "b"⟩] "cache_table" []
  exact ⟨h.1, h.2.1, h.2.2 401 (fun _ => 1) (fun _ => 200) []
    [⟨"ID_1", .text "a", .text "b"⟩] (by decide)⟩

/-- C7: a failed login hard-fails the import flow — `main` ends with the login
exception, zero submissions and an untouched tracking table — whereas the
delete flow merely logs the status and proceeds identically to a run whose
login succeeded. -/
theorem c7_login_failure_asymmetry (loginStatus : Nat) (hash : PyValue → Int)
    (respond : Nat → Nat) (df : List Row) (sqlite : TrackTable)
    (listCalls : List (Except String ListResponse)) (dtable : TrackTable)
    (hfail : loginStatus ≠ 200) :
    insert_main loginStatus hash respond df sqlite
      = ⟨[], sqlite, some "DocuWare login failed."⟩ ∧
    delete_main loginStatus listCalls dtable = delete_main 200 listCalls dtable := by
  refine ⟨?_, rfl⟩
  rw [insert_main, if_pos hfail]

/-- C7 witness: login status 401, one pending row and one LIST page. -/
theorem c7_login_failure_asymmetry_witness :
    (401 : Nat) ≠ 200 ∧
    insert_main 401 (fun _ => 0) (fun _ => 200)
        [[("field1", PyValue.str "a"), ("field2", PyValue.str "b")]] []
      = ⟨[], [], some "DocuWare login failed."⟩ ∧
    delete_main 401 [Except.ok ⟨200, []⟩] [⟨"ID_1", .text "a", .text "b"⟩]
      = delete_main 200 [Except.ok ⟨200, []⟩] [⟨"ID_1", .text "a", .text "b"⟩] :=
  ⟨by decide,
    (c7_login_failure_asymmetry 401 (fun _ => 0) (fun _ => 200)
      [[("field1", PyValue.str "a"), ("field2", PyValue.str "b")]] []
      [Except.ok ⟨200, []⟩] [⟨"ID_1", .text "a", .text "b"⟩] (by decide)).1,
    (c7_login_failure_asymmetry 401 (fun _ => 0) (fun _ => 200)
      [[("field1", PyValue.str "a"), ("field2", PyValue.str "b")]] []
      [Except.ok ⟨200, []⟩] [⟨"ID_1", .text "a", .text "b"⟩] (by decide)).2⟩

/-- C8: in the import transform, a source cell that is present but NA
(None or NaN) is mapped to the empty string in the submitted field set —
never to a literal "null" or "nan" string. -/
theorem c8_na_maps_to_empty_string (row : Row) (source : String) (v : PyValue)
    (field_mapping : List (String × String)) (field_name : String)
    (hget : rowGet row source = some v) (hna : v.isna = true)
    (hmem : (field_name, source) ∈ field_mapping) :
    build_field_value row source = .str "" ∧
    (⟨field_name, .str ""⟩ : DWField) ∈ build_fields field_mapping row ∧
    PyValue.str "" ≠ .str "null" ∧ PyValue.str "" ≠ .str "nan" := by
  have hval : build_field_value row source = .str "" := by
    rw [build_field_value, rowGetD, hget]
    simp only [Option.getD_some, hna, ite_true, if_pos]
  refine ⟨hval, ?_, by decide, by decide⟩
  have := List.mem_map_of_mem
    (fun p : String × String => (⟨p.1, build_field_value row p.2⟩ : DWField)) hmem
  rw [build_fields]
  simpa [hval] using this

/-- C8 witness: a row holding None in column "col". -/
theorem c8_na_maps_to_empty_string_witness :
    (rowGet [("col", PyValue.null)] "col" = some PyValue.null ∧
      PyValue.null.isna = true ∧
      ("F", "col") ∈ [("F", "col")]) ∧
    (build_field_value [("col", PyValue.null)] "col" = .str "" ∧
      (⟨"F", .str ""⟩ : DWField) ∈ build_fields [("F", "col")] [("col", PyValue.null)]) :=
  ⟨⟨by decide, rfl, by decide⟩,
    ⟨(c8_na_maps_to_empty_string [("col", PyValue.null)] "col" PyValue.null
        [("F", "col")] "F" (by decide) rfl (by decide)).1,
      (c8_na_maps_to_empty_string [("col", PyValue.null)] "col" PyValue.null
        [("F", "col")] "F" (by decide) rfl (by decide)).2.1⟩⟩

/-- C9: `insert` stores field1/field2 as bound, with no `or ""` normalization
(the inserted row carries exactly the bound values), while `is_duplicate`
normalizes its arguments with `or ""` before an exact SQL comparison; hence
the round trip fails for some inputs — after inserting (None, v) into an
empty table, `is_duplicate(None, v)` still returns false, because the stored
NULL never compares equal to the normalized empty-string parameter. -/
theorem c9_insert_check_mismatch :
    (∀ (table : TrackTable) (id_val : String) (f1 f2 : PyValue),
      (⟨id_val, sqliteBind f1, sqliteBind f2⟩ : TrackRow)
        ∈ SQLiteManager.insert table id_val f1 f2) ∧
    (∀ (table : TrackTable) (f1 f2 : PyValue),
      SQLiteManager.is_duplicate table f1 f2
        = SQLiteManager.is_duplicate table f1.orEmpty f2.orEmpty) ∧
    (∀ (id_val v : String),
      SQLiteManager.is_duplicate
        (SQLiteManager.insert [] id_val .null (.str v)) .null (.str v) = false) := by
  refine ⟨?_, ?_, ?_⟩
  · intro table id_val f1 f2
    rw [SQLiteManager.insert]
    exact List.mem_append_right _ (List.mem_singleton.mpr rfl)
  · intro table f1 f2
    rw [SQLiteManager.is_duplicate, SQLiteManager.is_duplicate,
      PyValue.orEmpty_idem, PyValue.orEmpty_idem]
  · intro id_val v
    rw [SQLiteManager.insert, SQLiteManager.is_duplicate]
    simp [PyValue.orEmpty, PyValue.truthy, sqliteBind, sqlEq]

/-- C10: for a field-mapping entry whose source column is absent from the row,
the submitted field value is the source column name itself — the default of
`row.get(source, source)` — and (for a non-empty column name) not the empty
string. -/
theorem c10_absent_column_yields_name (row : Row) (source : String)
    (field_mapping : List (String × String)) (field_name : String)
    (habs : rowGet row source = none) (hne : source ≠ "")
    (hmem : (field_name, source) ∈ field_mapping) :
    build_field_value row source = .str source ∧
    (⟨field_name, .str source⟩ : DWField) ∈ build_fields field_mapping row ∧
    PyValue.str source ≠ .str "" := by
  have hval : build_field_value row source = .str source := by
    rw [build_field_value, rowGetD, habs]
    simp [PyValue.isna]
  refine ⟨hval, ?_, by simp [hne]⟩
  have := List.mem_map_of_mem
    (fun p : String × String => (⟨p.1, build_field_value row p.2⟩ : DWField)) hmem
  rw [build_fields]
  simpa [hval] using this

/-- C10 witness: an empty row and the mapping entry ("F", "col"). -/
theorem c10_absent_column_yields_name_witness :
    (rowGet [] "col" = none ∧ "col" ≠ "" ∧ ("F", "col") ∈ [("F", "col")]) ∧
    (build_field_value [] "col" = .str "col" ∧
      (⟨"F", .str "col"⟩ : DWField) ∈ build_fields [("F", "col")] []) :=
  ⟨⟨rfl, by decide, by decide⟩,
    ⟨(c10_absent_column_yields_name [] "col" [("F", "col")] "F"
        rfl (by decide) (by decide)).1,
      (c10_absent_column_yields_name [] "col" [("F", "col")] "F"
        rfl (by decide) (by decide)).2.1⟩⟩

end MsAccessDocuware
